import Mathlib

/-!
Dedicated ingress translation and gateway-api change filters: a shallow embedding of

* `operator/pkg/model/translation/ingress/dedicated_ingress.go`
  (`DedicatedIngressTranslator.Translate`, `getService`, `getEndpoints`), and
* `operator/pkg/gateway-api/controller.go`
  (`hasMatchingController`, `getGatewaysForSecret`, `onlyStatusChanged`).

Go pointers that may be nil are `Option`s, slices are `List`s, a Go `map[string]string`
literal is an association list, `error` values are carried by their message, and a
run-time panic is an explicit outcome. Logging is not modelled.
-/

namespace Cilium

/-! ## Kubernetes object metadata -/

/-- Go `error` values, identified by their message. -/
abbrev GoError := String

/-- Outcome of running a Go function body: it either returns a value or panics. -/
inductive Outcome (α : Type) where
  | returned (a : α)
  | panicked (msg : String)
  deriving DecidableEq, Repr

/-- Owner reference of `metav1`: the fields the translator sets, and the two optional flags
it leaves nil. -/
structure OwnerReference where
  APIVersion : String
  Kind : String
  Name : String
  UID : String
  Controller : Option Bool := none
  BlockOwnerDeletion : Option Bool := none
  deriving DecidableEq, Repr

/-- Object metadata of `metav1`, restricted to the fields read or written by the code. -/
structure ObjectMeta where
  Name : String := ""
  Namespace : String := ""
  Labels : List (String × String) := []
  OwnerReferences : List OwnerReference := []
  deriving DecidableEq, Repr

/-! ## Routing model (`operator/pkg/model`) -/

/-- Modelled from the spec: `model.FullyQualifiedResource`, whose declaration is not part of
the sources at hand; the spec gives a Source as `{Name, Namespace, UID}`. -/
structure FullyQualifiedResource where
  Name : String
  Namespace : String
  UID : String
  deriving DecidableEq, Repr

/-- Modelled from the spec: one route rule of a listener. The translator code under study never
inspects it. -/
structure HTTPRoute where
  Name : String
  Hostnames : List String := []
  deriving DecidableEq, Repr

/-- Modelled from the spec: `model.HTTPListener`, an ordered sequence of sources together with
route rules. -/
structure HTTPListener where
  Name : String := ""
  Sources : List FullyQualifiedResource
  Routes : List HTTPRoute := []
  deriving DecidableEq, Repr

/-- Modelled from the spec: `model.Model`, an ordered sequence of HTTP listeners. -/
structure Model where
  HTTP : List HTTPListener
  deriving DecidableEq, Repr

/-! ## Derived resources -/

/-- Spec of a `CiliumEnvoyConfig`; it is filled by the shared translator only. -/
structure CiliumEnvoyConfigSpec where
  Services : List String := []
  BackendServices : List String := []
  Resources : List String := []
  deriving DecidableEq, Repr

/-- The proxy configuration object `ciliumv2.CiliumEnvoyConfig`; the embedded `ObjectMeta`
fields are flattened as Go field promotion does (`cec.Name`, `cec.OwnerReferences`). -/
structure CiliumEnvoyConfig where
  Name : String := ""
  Namespace : String := ""
  Labels : List (String × String) := []
  OwnerReferences : List OwnerReference := []
  Spec : CiliumEnvoyConfigSpec := {}
  deriving DecidableEq, Repr

/-- A port of `corev1.ServiceSpec`. -/
structure ServicePort where
  Name : String
  Protocol : String
  Port : Int
  deriving DecidableEq, Repr

/-- The part of `corev1.ServiceSpec` set by `getService`; `Type_` is the Go field `Type`. -/
structure ServiceSpec where
  Type_ : String
  Ports : List ServicePort
  deriving DecidableEq, Repr

/-- The object `corev1.Service`. -/
structure Service where
  ObjectMeta : ObjectMeta
  Spec : ServiceSpec
  deriving DecidableEq, Repr

/-- An address of `corev1.EndpointSubset`. -/
structure EndpointAddress where
  IP : String
  deriving DecidableEq, Repr

/-- A port of `corev1.EndpointSubset`. -/
structure EndpointPort where
  Port : Int
  deriving DecidableEq, Repr

/-- A subset of `corev1.Endpoints`. -/
structure EndpointSubset where
  Addresses : List EndpointAddress
  NotReadyAddresses : List EndpointAddress := []
  Ports : List EndpointPort
  deriving DecidableEq, Repr

/-- The object `corev1.Endpoints`. -/
structure Endpoints where
  ObjectMeta : ObjectMeta
  Subsets : List EndpointSubset
  deriving DecidableEq, Repr

/-- The four values returned by `translation.Translator.Translate`; each pointer and the error
may be nil. -/
structure TranslateResult where
  cec : Option CiliumEnvoyConfig
  svc : Option Service
  ep : Option Endpoints
  err : Option GoError
  deriving DecidableEq, Repr

/-! ## Constants and helpers of the `ingress` package -/

/-- Constant `ciliumIngressPrefix`. -/
def ciliumIngressPrefix : String := "cilium-ingress"

/-- Constant `ciliumIngressLabelKey`. -/
def ciliumIngressLabelKey : String := "cilium.io/ingress"

/-- Constant `corev1.ServiceTypeLoadBalancer`. -/
def ServiceTypeLoadBalancer : String := "LoadBalancer"

/-- The call `fmt.Sprintf("%s-%s", a, b)`. -/
def Sprintf2 (a b : String) : String := a ++ "-" ++ b

/-- The call `fmt.Sprintf("%s-%s-%s", a, b, c)`. -/
def Sprintf3 (a b c : String) : String := a ++ "-" ++ b ++ "-" ++ c

/-- The call `fmt.Errorf(msg)` for a format string without verbs. -/
def Errorf (msg : String) : GoError := msg

/-- The type `DedicatedIngressTranslator`. -/
structure DedicatedIngressTranslator where
  secretsNamespace : String
  enforceHTTPs : Bool
  deriving DecidableEq, Repr

/-- The constructor `NewDedicatedIngressTranslator`. -/
def NewDedicatedIngressTranslator (secretsNamespace : String) (enforceHTTPs : Bool) :
    DedicatedIngressTranslator :=
  { secretsNamespace := secretsNamespace, enforceHTTPs := enforceHTTPs }

/-- Modelled from the spec: the shared-mode translator `SharedIngressTranslator`, whose
declaration is not part of the sources at hand; its fields are the four constructor arguments
passed at the call site in `Translate`. -/
structure SharedIngressTranslator where
  name : String
  ns : String
  secretsNamespace : String
  enforceHTTPs : Bool
  deriving DecidableEq, Repr

/-- Modelled from the spec: the constructor `NewSharedIngressTranslator`, missing from the
sources at hand, storing its four arguments. -/
def NewSharedIngressTranslator (name ns secretsNamespace : String) (enforceHTTPs : Bool) :
    SharedIngressTranslator :=
  { name := name, ns := ns, secretsNamespace := secretsNamespace, enforceHTTPs := enforceHTTPs }

/-- What the `ingress` package takes from packages that are not part of the sources at hand:
the rendering `slim_networkingv1.SchemeGroupVersion.String()` and the method
`(*SharedIngressTranslator).Translate`. -/
structure Env where
  SchemeGroupVersion : String
  sharedTranslate : SharedIngressTranslator → Option Model → TranslateResult

/-- The function `getService`. -/
def getService (env : Env) (resource : FullyQualifiedResource) : Service :=
  { ObjectMeta :=
      { Name := Sprintf2 ciliumIngressPrefix resource.Name
        Namespace := resource.Namespace
        Labels := [(ciliumIngressLabelKey, "true")]
        OwnerReferences :=
          [{ APIVersion := env.SchemeGroupVersion
             Kind := "Ingress"
             Name := resource.Name
             UID := resource.UID }] }
    Spec :=
      { Type_ := ServiceTypeLoadBalancer
        Ports :=
          [ { Name := "http", Protocol := "TCP", Port := 80 },
            { Name := "https", Protocol := "TCP", Port := 443 } ] } }

/-- The function `getEndpoints`. -/
def getEndpoints (env : Env) (resource : FullyQualifiedResource) : Endpoints :=
  { ObjectMeta :=
      { Name := Sprintf2 ciliumIngressPrefix resource.Name
        Namespace := resource.Namespace
        Labels := [(ciliumIngressLabelKey, "true")]
        OwnerReferences :=
          [{ APIVersion := env.SchemeGroupVersion
             Kind := "Ingress"
             Name := resource.Name
             UID := resource.UID }] }
    Subsets :=
      [ { Addresses := [{ IP := "192.192.192.192" }]
          Ports := [{ Port := 9999 }] } ] }

/-- The result `nil, nil, nil, fmt.Errorf("model source can't be empty")`. -/
def emptyModelResult : TranslateResult :=
  { cec := none, svc := none, ep := none, err := some (Errorf "model source can't be empty") }

/-- The method `(*DedicatedIngressTranslator).Translate`. The guard
`m == nil || len(m.HTTP) == 0 || len(m.HTTP[0].Sources) == 0` is the three empty cases of the
matches; assigning through a nil `cec` with a nil error is a nil-pointer panic. -/
def DedicatedIngressTranslator.Translate (env : Env) (d : DedicatedIngressTranslator)
    (m : Option Model) : Outcome TranslateResult :=
  match m with
  | none => .returned emptyModelResult
  | some model =>
    match model.HTTP with
    | [] => .returned emptyModelResult
    | l0 :: _ =>
      match l0.Sources with
      | [] => .returned emptyModelResult
      | s0 :: _ =>
        let name := Sprintf2 ciliumIngressPrefix s0.Name
        let ns := s0.Namespace
        let translator := NewSharedIngressTranslator name ns d.secretsNamespace d.enforceHTTPs
        let shared := env.sharedTranslate translator (some model)
        match shared.err with
        | some err => .returned { cec := none, svc := none, ep := none, err := some err }
        | none =>
          match shared.cec with
          | none => .panicked "invalid memory address or nil pointer dereference"
          | some cec =>
            let cec1 := { cec with Name := Sprintf3 ciliumIngressPrefix ns s0.Name }
            let cec2 := { cec1 with
              OwnerReferences :=
                [{ APIVersion := env.SchemeGroupVersion
                   Kind := "Ingress"
                   Name := s0.Name
                   UID := s0.UID }] }
            .returned
              { cec := some cec2
                svc := some (getService env s0)
                ep := some (getEndpoints env s0)
                err := none }

/-- Modelled from the spec: the method `(*SharedIngressTranslator).Translate`, missing from the
sources at hand. By the spec's translator contract it fails with the empty-model error when
the model has no listener or its first listener has no source, and otherwise succeeds with one
proxy configuration for all sources, named by the identity the translator was constructed
with. The spec leaves the content of the proxy-configuration schema out of scope, so the spec
of the proxy configuration is left empty; it describes service and endpoint synthesis for the
dedicated mode only, and the dedicated translator discards what the shared one returns for
them, so no service or endpoint set is returned here. -/
def SharedIngressTranslator.Translate (t : SharedIngressTranslator) (m : Option Model) :
    TranslateResult :=
  match m with
  | none => emptyModelResult
  | some model =>
    match model.HTTP with
    | [] => emptyModelResult
    | l0 :: _ =>
      match l0.Sources with
      | [] => emptyModelResult
      | _ :: _ =>
        { cec := some { Name := t.name, Namespace := t.ns }, svc := none, ep := none
          err := none }

/-- The environment in which the shared translator is the one modelled from the spec, for a
given rendering of the group version. -/
def specEnv (gv : String) : Env :=
  { SchemeGroupVersion := gv, sharedTranslate := SharedIngressTranslator.Translate }

/-! ## Gateway API objects (`sigs.k8s.io/gateway-api/apis/v1beta1`) -/

/-- The key type `types.NamespacedName` (also `client.ObjectKey`). -/
structure NamespacedName where
  Namespace : String := ""
  Name : String := ""
  deriving DecidableEq, Repr

namespace gatewayv1beta1

/-- A status condition (`metav1.Condition`); the transition time is an instant. -/
structure Condition where
  Type_ : String
  Status : String
  ObservedGeneration : Int := 0
  LastTransitionTime : Int := 0
  Reason : String := ""
  Message : String := ""
  deriving DecidableEq, Repr

/-- Spec of a class resource. -/
structure GatewayClassSpec where
  ControllerName : String
  Description : Option String := none
  deriving DecidableEq, Repr

/-- Status of a class resource. -/
structure GatewayClassStatus where
  Conditions : List Condition := []
  deriving DecidableEq, Repr

/-- The class resource `GatewayClass`. -/
structure GatewayClass where
  ObjectMeta : ObjectMeta := {}
  Spec : GatewayClassSpec
  Status : GatewayClassStatus := {}
  deriving DecidableEq, Repr

/-- A certificate reference of a listener; `Group`, `Kind` and `Namespace` are pointers. -/
structure SecretObjectReference where
  Group : Option String := none
  Kind : Option String := none
  Name : String
  Namespace : Option String := none
  deriving DecidableEq, Repr

/-- TLS configuration of a listener. -/
structure GatewayTLSConfig where
  CertificateRefs : List SecretObjectReference := []
  deriving DecidableEq, Repr

/-- A listener of a gateway; `TLS` is a pointer. -/
structure Listener where
  Name : String := ""
  Port : Int := 0
  Protocol : String := ""
  TLS : Option GatewayTLSConfig := none
  deriving DecidableEq, Repr

/-- Spec of a gateway. -/
structure GatewaySpec where
  GatewayClassName : String
  Listeners : List Listener := []
  deriving DecidableEq, Repr

/-- Status of a gateway. -/
structure GatewayStatus where
  Addresses : List String := []
  Conditions : List Condition := []
  deriving DecidableEq, Repr

/-- The gateway resource `Gateway`. -/
structure Gateway where
  ObjectMeta : ObjectMeta := {}
  Spec : GatewaySpec
  Status : GatewayStatus := {}
  deriving DecidableEq, Repr

/-- Spec of a route. -/
structure HTTPRouteSpec where
  ParentRefs : List NamespacedName := []
  Hostnames : List String := []
  deriving DecidableEq, Repr

/-- Status of a route with respect to one parent. -/
structure RouteParentStatus where
  ParentRef : NamespacedName
  ControllerName : String
  Conditions : List Condition := []
  deriving DecidableEq, Repr

/-- Status of a route. -/
structure HTTPRouteStatus where
  Parents : List RouteParentStatus := []
  deriving DecidableEq, Repr

/-- The route resource `HTTPRoute`. -/
structure HTTPRoute where
  ObjectMeta : ObjectMeta := {}
  Spec : HTTPRouteSpec := {}
  Status : HTTPRouteStatus := {}
  deriving DecidableEq, Repr

/-- The method `GetName` of a gateway. -/
def Gateway.GetName (gw : Gateway) : String := gw.ObjectMeta.Name

/-- The method `GetNamespace` of a gateway. -/
def Gateway.GetNamespace (gw : Gateway) : String := gw.ObjectMeta.Namespace

end gatewayv1beta1

/-- The object `corev1.Secret`. -/
structure Secret where
  ObjectMeta : ObjectMeta := {}
  Data : List (String × String) := []
  deriving DecidableEq, Repr

/-- A value of the interface `client.Object`, tagged with its dynamic type: the three watched
gateway-api kinds, a secret, or an object of any other kind. The pointer it carries is
non-nil, as for every object delivered with a watch event. -/
inductive Object where
  | GatewayClass (o : gatewayv1beta1.GatewayClass)
  | Gateway (o : gatewayv1beta1.Gateway)
  | HTTPRoute (o : gatewayv1beta1.HTTPRoute)
  | Secret (o : Secret)
  | Other (kind : String) (om : ObjectMeta)
  deriving DecidableEq, Repr

/-- Metadata of an object of any kind. -/
def Object.meta : Object → ObjectMeta
  | .GatewayClass o => o.ObjectMeta
  | .Gateway o => o.ObjectMeta
  | .HTTPRoute o => o.ObjectMeta
  | .Secret o => o.ObjectMeta
  | .Other _ om => om

/-- The interface method `GetName`. -/
def Object.GetName (obj : Object) : String := obj.meta.Name

/-- The interface method `GetNamespace`. -/
def Object.GetNamespace (obj : Object) : String := obj.meta.Namespace

/-- The reads of `client.Client` used by the change filters: the point read of a class resource
by key and the list of all gateways; either may fail with an error. -/
structure Client where
  GetGatewayClass : NamespacedName → Except GoError gatewayv1beta1.GatewayClass
  ListGateways : Except GoError (List gatewayv1beta1.Gateway)

/-- The update event `event.UpdateEvent`. -/
structure UpdateEvent where
  ObjectOld : Object
  ObjectNew : Object
  deriving DecidableEq, Repr

/-- The predicate `predicate.Funcs`, restricted to its update function (a nil function
accepts every event). -/
structure Funcs where
  UpdateFunc : Option (UpdateEvent → Bool) := none

/-- The method `Funcs.Update`. -/
def Funcs.Update (p : Funcs) (e : UpdateEvent) : Bool :=
  match p.UpdateFunc with
  | some f => f e
  | none => true

/-- The call `cmp.Equal(x, y)` without options: deep equality of two values of one type. -/
def cmpEqual {α : Type} [DecidableEq α] (x y : α) : Bool := decide (x = y)

/-! ## Change filters (`operator/pkg/gateway-api/controller.go`) -/

/-- Constant `controllerName`. -/
def controllerName : String := "io.cilium/gateway-controller"

/-- Modelled from the spec: the helper `namespaceDerefOr`, missing from the sources at hand: a
reference's namespace is its explicit namespace when set and otherwise the given default. -/
def namespaceDerefOr (ns : Option String) (defaultNamespace : String) : String :=
  match ns with
  | some n => n
  | none => defaultNamespace

/-- The function `hasMatchingController`, applied to its three arguments and then to the
object. -/
def hasMatchingController (c : Client) (controllerName : String) (obj : Object) : Bool :=
  match obj with
  | .Gateway gw =>
    let key : NamespacedName := { Name := gw.Spec.GatewayClassName }
    match c.GetGatewayClass key with
    | .error _ => false
    | .ok gwc => decide (gwc.Spec.ControllerName = controllerName)
  | _ => false

/-- The function `getGatewaysForSecret`; the helper `IsSecret`, missing from the sources at
hand, is an argument. The three nested `for` loops are three nested left folds over the
accumulator `gateways`. -/
def getGatewaysForSecret (IsSecret : gatewayv1beta1.SecretObjectReference → Bool)
    (c : Client) (obj : Object) : List NamespacedName :=
  match c.ListGateways with
  | .error _ => []
  | .ok gwList =>
    gwList.foldl (fun gateways gw =>
      gw.Spec.Listeners.foldl (fun gateways l =>
        match l.TLS with
        | none => gateways
        | some tls =>
          tls.CertificateRefs.foldl (fun gateways cert =>
            if !IsSecret cert then gateways
            else
              let ns := namespaceDerefOr cert.Namespace gw.GetNamespace
              if cert.Name = obj.GetName ∧ ns = obj.GetNamespace then
                gateways ++ [{ Namespace := ns, Name := gw.GetName }]
              else gateways) gateways) gateways) []

/-- The update function of `onlyStatusChanged`: a type switch on the old object, then type
assertions on the old and the new object. -/
def onlyStatusChangedUpdateFunc (e : UpdateEvent) : Bool :=
  match e.ObjectOld with
  | .GatewayClass o =>
    match e.ObjectNew with
    | .GatewayClass n => !cmpEqual o.Status n.Status
    | _ => false
  | .Gateway o =>
    match e.ObjectNew with
    | .Gateway n => !cmpEqual o.Status n.Status
    | _ => false
  | .HTTPRoute o =>
    match e.ObjectNew with
    | .HTTPRoute n => !cmpEqual o.Status n.Status
    | _ => false
  | _ => false

/-- The function `onlyStatusChanged`. -/
def onlyStatusChanged : Funcs := { UpdateFunc := some onlyStatusChangedUpdateFunc }

/-! ## Sample data -/

/-- A sample environment: the networking group version, and a shared translator that returns
a proxy config carrying the name and namespace it was constructed with, and nothing else. -/
def sampleEnv : Env :=
  { SchemeGroupVersion := "networking.k8s.io/v1"
    sharedTranslate := fun t _ =>
      { cec := some { Name := t.name, Namespace := t.ns }, svc := none, ep := none, err := none } }

/-- A sample dedicated translator. -/
def sampleTranslator : DedicatedIngressTranslator :=
  NewDedicatedIngressTranslator "cilium-secrets" false

/-- The source `{Name: "foo", Namespace: "ns", UID: "u1"}`. -/
def sampleSource : FullyQualifiedResource := { Name := "foo", Namespace := "ns", UID := "u1" }

/-- A model with one listener that has the sample source. -/
def sampleModel : Model := { HTTP := [{ Sources := [sampleSource] }] }

/-- A model with two listeners: the first has no source, the second has the sample source. -/
def laterSourceModel : Model := { HTTP := [{ Sources := [] }, { Sources := [sampleSource] }] }

/-- The proxy config derived from the sample model in the sample environment. -/
def sampleCec : CiliumEnvoyConfig :=
  { Name := "cilium-ingress-ns-foo"
    Namespace := "ns"
    OwnerReferences :=
      [{ APIVersion := "networking.k8s.io/v1", Kind := "Ingress", Name := "foo", UID := "u1" }] }

/-- The result of translating the sample model in the sample environment. -/
def sampleResult : TranslateResult :=
  { cec := some sampleCec
    svc := some (getService sampleEnv sampleSource)
    ep := some (getEndpoints sampleEnv sampleSource)
    err := none }

/-- A sample class resource owned by this controller. -/
def sampleClass : gatewayv1beta1.GatewayClass :=
  { ObjectMeta := { Name := "cilium" }
    Spec := { ControllerName := "io.cilium/gateway-controller" } }

/-- The sample class resource after an `Accepted` condition was written to its status. -/
def sampleClassAccepted : gatewayv1beta1.GatewayClass :=
  { sampleClass with Status := { Conditions := [{ Type_ := "Accepted", Status := "True" }] } }

/-- The sample class resource after a description was added to its spec. -/
def sampleClassRespecified : gatewayv1beta1.GatewayClass :=
  { sampleClass with
    Spec := { ControllerName := "io.cilium/gateway-controller", Description := some "edited" } }

/-- A class resource that declares another controller. -/
def otherClass : gatewayv1beta1.GatewayClass :=
  { ObjectMeta := { Name := "other" }
    Spec := { ControllerName := "other/controller" } }

/-- A gateway `gw-ns/gw1` of class `cilium` whose HTTPS listener references the certificate
`cert-a` in the namespace `ns`, explicitly. -/
def gwCross : gatewayv1beta1.Gateway :=
  { ObjectMeta := { Name := "gw1", Namespace := "gw-ns" }
    Spec :=
      { GatewayClassName := "cilium"
        Listeners :=
          [{ Name := "https", Port := 443, Protocol := "HTTPS"
             TLS := some { CertificateRefs := [{ Name := "cert-a", Namespace := some "ns" }] } }] } }

/-- A gateway `ns/gw1` of class `other` whose HTTPS listener references the certificate
`cert-b` of its own namespace. -/
def gwLocal : gatewayv1beta1.Gateway :=
  { ObjectMeta := { Name := "gw1", Namespace := "ns" }
    Spec :=
      { GatewayClassName := "other"
        Listeners :=
          [{ Name := "https", Port := 443, Protocol := "HTTPS"
             TLS := some { CertificateRefs := [{ Name := "cert-b" }] } }] } }

/-- A gateway whose class does not exist. -/
def gwOrphan : gatewayv1beta1.Gateway :=
  { ObjectMeta := { Name := "gw3", Namespace := "ns" }
    Spec := { GatewayClassName := "missing" } }

/-- The secret `ns/cert-a`. -/
def sampleSecret : Secret := { ObjectMeta := { Name := "cert-a", Namespace := "ns" } }

/-- A sample reference test: the group is nil or the core group, and the kind is nil or
`Secret`. -/
def sampleIsSecret (cert : gatewayv1beta1.SecretObjectReference) : Bool :=
  (cert.Group = none ∨ cert.Group = some "") ∧ (cert.Kind = none ∨ cert.Kind = some "Secret")

/-- A sample cluster: the classes `cilium` and `other`, and the gateways `gw-ns/gw1` and
`ns/gw1`. -/
def sampleClient : Client :=
  { GetGatewayClass := fun key =>
      if key = { Name := "cilium" } then .ok sampleClass
      else if key = { Name := "other" } then .ok otherClass
      else .error "gatewayclasses.gateway.networking.k8s.io not found"
    ListGateways := .ok [gwCross, gwLocal] }

/-- A sample environment whose shared translator fails, while still handing back a proxy
config. -/
def failingEnv : Env :=
  { SchemeGroupVersion := "networking.k8s.io/v1"
    sharedTranslate := fun t _ =>
      { cec := some { Name := t.name, Namespace := t.ns }, svc := none, ep := none
        err := some "envoy listener translation failed" } }

/-- A sample environment whose shared translator fills every field of the proxy config from
the values it was constructed with, and also returns a service and an endpoint set. -/
def sampleEnvFull : Env :=
  { SchemeGroupVersion := "networking.k8s.io/v1"
    sharedTranslate := fun t _ =>
      { cec := some
          { Name := t.name
            Namespace := t.ns
            Labels := [("shared", "yes")]
            OwnerReferences :=
              [{ APIVersion := "v1", Kind := "ConfigMap", Name := "stale", UID := "u0" }]
            Spec :=
              { Services := [t.name]
                BackendServices := ["default/backend"]
                Resources := [t.secretsNamespace] } }
        svc := some
          { ObjectMeta := { Name := "shared-svc", Namespace := t.ns }
            Spec := { Type_ := "ClusterIP", Ports := [] } }
        ep := some { ObjectMeta := { Name := "shared-ep", Namespace := t.ns }, Subsets := [] }
        err := none } }

/-- A model with two listeners whose first listener has the sample source first, then a
second source and a route rule. -/
def richModel : Model :=
  { HTTP :=
      [{ Name := "l1"
         Sources := [sampleSource, { Name := "bar", Namespace := "other", UID := "u2" }]
         Routes := [{ Name := "r1", Hostnames := ["example.com"] }] },
       { Name := "l2", Sources := [{ Name := "baz", Namespace := "ns", UID := "u3" }] }] }

/-- A gateway `ns/gw2` with two TLS listeners that both reference the certificate `cert-a` of
its own namespace. -/
def gwTwice : gatewayv1beta1.Gateway :=
  { ObjectMeta := { Name := "gw2", Namespace := "ns" }
    Spec :=
      { GatewayClassName := "cilium"
        Listeners :=
          [{ Name := "https", Port := 443, Protocol := "HTTPS"
             TLS := some { CertificateRefs := [{ Name := "cert-a" }] } },
           { Name := "https-alt", Port := 8443, Protocol := "HTTPS"
             TLS := some { CertificateRefs := [{ Name := "cert-a" }] } }] } }

/-- A gateway `ns/gw4` with one TLS listener that references the certificate `cert-a` of its
own namespace. -/
def gwOnce : gatewayv1beta1.Gateway :=
  { ObjectMeta := { Name := "gw4", Namespace := "ns" }
    Spec :=
      { GatewayClassName := "cilium"
        Listeners :=
          [{ Name := "https", Port := 443, Protocol := "HTTPS"
             TLS := some { CertificateRefs := [{ Name := "cert-a" }] } }] } }

/-- The identity of a gateway: its own namespace and name. -/
def gatewayIdentity (gw : gatewayv1beta1.Gateway) : NamespacedName :=
  { Namespace := gw.GetNamespace, Name := gw.GetName }

/-- The proxy config that the shared translator of `sampleEnvFull` returns for the sample
translator and a model whose first source is the sample source. -/
def sharedCecFull : CiliumEnvoyConfig :=
  { Name := "cilium-ingress-foo"
    Namespace := "ns"
    Labels := [("shared", "yes")]
    OwnerReferences := [{ APIVersion := "v1", Kind := "ConfigMap", Name := "stale", UID := "u0" }]
    Spec :=
      { Services := ["cilium-ingress-foo"]
        BackendServices := ["default/backend"]
        Resources := ["cilium-secrets"] } }

/-- The result of translating `richModel` in `sampleEnvFull`. -/
def richResult : TranslateResult :=
  { cec := some
      { sharedCecFull with
        Name := "cilium-ingress-ns-foo"
        OwnerReferences :=
          [{ APIVersion := "networking.k8s.io/v1", Kind := "Ingress", Name := "foo"
             UID := "u1" }] }
    svc := some (getService sampleEnvFull sampleSource)
    ep := some (getEndpoints sampleEnvFull sampleSource)
    err := none }

/-! ## Reverse mapping, loop by loop -/

/-- The keys that the innermost loop body of `getGatewaysForSecret` appends for one
certificate reference of the gateway `gw`: one key when the reference matches the secret
`obj`, none otherwise. -/
def certKeys (IsSecret : gatewayv1beta1.SecretObjectReference → Bool) (obj : Object)
    (gw : gatewayv1beta1.Gateway) (cert : gatewayv1beta1.SecretObjectReference) :
    List NamespacedName :=
  if IsSecret cert = true ∧ cert.Name = obj.GetName ∧
      namespaceDerefOr cert.Namespace gw.GetNamespace = obj.GetNamespace then
    [{ Namespace := namespaceDerefOr cert.Namespace gw.GetNamespace, Name := gw.GetName }]
  else []

/-- The keys that `getGatewaysForSecret` appends for one listener of the gateway `gw`. -/
def listenerKeys (IsSecret : gatewayv1beta1.SecretObjectReference → Bool) (obj : Object)
    (gw : gatewayv1beta1.Gateway) (l : gatewayv1beta1.Listener) : List NamespacedName :=
  match l.TLS with
  | none => []
  | some tls => tls.CertificateRefs.flatMap (certKeys IsSecret obj gw)

/-- The keys that `getGatewaysForSecret` appends for the gateway `gw`. -/
def gatewayKeys (IsSecret : gatewayv1beta1.SecretObjectReference → Bool) (obj : Object)
    (gw : gatewayv1beta1.Gateway) : List NamespacedName :=
  gw.Spec.Listeners.flatMap (listenerKeys IsSecret obj gw)

/-! ## Translation: shared lemmas -/

/-- The shared translator's result on which `Translate` builds, for a model whose first
listener's first source is `s0`. -/
def sharedResultFor (env : Env) (d : DedicatedIngressTranslator) (model : Model)
    (s0 : FullyQualifiedResource) : TranslateResult :=
  env.sharedTranslate
    (NewSharedIngressTranslator (Sprintf2 ciliumIngressPrefix s0.Name) s0.Namespace
      d.secretsNamespace d.enforceHTTPs)
    (some model)

/-- The owner reference that `Translate` stamps on the proxy config. -/
def ingressOwnerReference (env : Env) (s0 : FullyQualifiedResource) : OwnerReference :=
  { APIVersion := env.SchemeGroupVersion, Kind := "Ingress", Name := s0.Name, UID := s0.UID }

theorem Translate_sample :
    DedicatedIngressTranslator.Translate sampleEnv sampleTranslator (some sampleModel)
      = .returned sampleResult := by
  decide

/-- On a model whose first listener has a first source, `Translate` is determined by the shared
translator's result. -/
theorem Translate_of_first_source (env : Env) (d : DedicatedIngressTranslator) (model : Model)
    (l0 : HTTPListener) (ls : List HTTPListener) (s0 : FullyQualifiedResource)
    (ss : List FullyQualifiedResource) (hm : model.HTTP = l0 :: ls) (hs : l0.Sources = s0 :: ss) :
    DedicatedIngressTranslator.Translate env d (some model) =
      match (sharedResultFor env d model s0).err with
      | some err => .returned { cec := none, svc := none, ep := none, err := some err }
      | none =>
        match (sharedResultFor env d model s0).cec with
        | none => .panicked "invalid memory address or nil pointer dereference"
        | some cec =>
          .returned
            { cec := some { cec with
                Name := Sprintf3 ciliumIngressPrefix s0.Namespace s0.Name
                OwnerReferences := [ingressOwnerReference env s0] }
              svc := some (getService env s0)
              ep := some (getEndpoints env s0)
              err := none } := by
  simp only [DedicatedIngressTranslator.Translate, hm, hs, sharedResultFor,
    ingressOwnerReference]

/-- Inversion of a successful translation: the model has a first listener with a first source,
the shared translator returned a proxy config and no error, and the result is built from
them. -/
theorem Translate_success_inv (env : Env) (d : DedicatedIngressTranslator) (m : Option Model)
    (r : TranslateResult) (h : DedicatedIngressTranslator.Translate env d m = .returned r)
    (hok : r.err = none) :
    ∃ model l0 ls s0 ss cec, m = some model ∧ model.HTTP = l0 :: ls ∧ l0.Sources = s0 :: ss ∧
      (sharedResultFor env d model s0).err = none ∧
      (sharedResultFor env d model s0).cec = some cec ∧
      r = { cec := some { cec with
              Name := Sprintf3 ciliumIngressPrefix s0.Namespace s0.Name
              OwnerReferences := [ingressOwnerReference env s0] }
            svc := some (getService env s0)
            ep := some (getEndpoints env s0)
            err := none } := by
  cases m with
  | none =>
    simp [DedicatedIngressTranslator.Translate] at h
    subst h
    simp [emptyModelResult] at hok
  | some model =>
    cases hm : model.HTTP with
    | nil =>
      simp [DedicatedIngressTranslator.Translate, hm] at h
      subst h
      simp [emptyModelResult] at hok
    | cons l0 ls =>
      cases hs : l0.Sources with
      | nil =>
        simp [DedicatedIngressTranslator.Translate, hm, hs] at h
        subst h
        simp [emptyModelResult] at hok
      | cons s0 ss =>
        rw [Translate_of_first_source env d model l0 ls s0 ss hm hs] at h
        cases he : (sharedResultFor env d model s0).err with
        | some err =>
          simp [he] at h
          subst h
          simp at hok
        | none =>
          cases hc : (sharedResultFor env d model s0).cec with
          | none => simp [he, hc] at h
          | some cec =>
            simp [he, hc] at h
            exact ⟨model, l0, ls, s0, ss, cec, rfl, hm, hs, he, hc, h.symm⟩

/-! ## Translation: success and the empty-model error -/

/-- C1, counterexample: the model whose first listener has no source and whose second listener
has the sample source has a listener with a source, yet `Translate` returns the empty-model
error and nil resources, in the sample environment and with the shared translator modelled
from the spec alike. -/
theorem Translate_later_source_fails :
    (∃ l ∈ laterSourceModel.HTTP, ∃ s, s ∈ l.Sources) ∧
    DedicatedIngressTranslator.Translate sampleEnv sampleTranslator (some laterSourceModel)
      = .returned
          { cec := none, svc := none, ep := none, err := some "model source can't be empty" } ∧
    DedicatedIngressTranslator.Translate (specEnv "networking.k8s.io/v1") sampleTranslator
        (some laterSourceModel)
      = .returned
          { cec := none, svc := none, ep := none, err := some "model source can't be empty" } := by
  refine ⟨⟨{ Sources := [sampleSource] }, ?_, sampleSource, ?_⟩, ?_, ?_⟩
  · simp [laterSourceModel]
  · simp
  · decide
  · decide

/-- If the model's first listener has a first source and the shared translator returns a proxy
config and no error for it, then `Translate` returns no error, a non-nil proxy config, a
non-nil service and a non-nil endpoint set. -/
theorem Translate_succeeds_of_shared_success (env : Env) (d : DedicatedIngressTranslator)
    (model : Model) (l0 : HTTPListener) (ls : List HTTPListener) (s0 : FullyQualifiedResource)
    (ss : List FullyQualifiedResource) (cec0 : CiliumEnvoyConfig)
    (hm : model.HTTP = l0 :: ls) (hs : l0.Sources = s0 :: ss)
    (herr : (sharedResultFor env d model s0).err = none)
    (hcec : (sharedResultFor env d model s0).cec = some cec0) :
    ∃ cec svc ep,
      DedicatedIngressTranslator.Translate env d (some model)
        = .returned { cec := some cec, svc := some svc, ep := some ep, err := none } := by
  rw [Translate_of_first_source env d model l0 ls s0 ss hm hs]
  simp only [herr, hcec]
  exact ⟨_, _, _, rfl⟩

/-- On a model whose first listener has a first source, the shared translator modelled from
the spec returns no error and the proxy config named as it was constructed. -/
theorem sharedTranslate_of_first_source (t : SharedIngressTranslator)
    (model : Model) (l0 : HTTPListener) (ls : List HTTPListener) (s0 : FullyQualifiedResource)
    (ss : List FullyQualifiedResource) (hm : model.HTTP = l0 :: ls)
    (hs : l0.Sources = s0 :: ss) :
    SharedIngressTranslator.Translate t (some model)
      = { cec := some { Name := t.name, Namespace := t.ns }, svc := none, ep := none
          err := none } := by
  simp only [SharedIngressTranslator.Translate, hm, hs]

/-- C1, amended: for every model whose first listener has at least one source, `Translate`,
calling the shared translator modelled from the spec, returns no error, a non-nil proxy
config, a non-nil service and a non-nil endpoint set. -/
theorem Translate_succeeds_of_first_source (gv : String) (d : DedicatedIngressTranslator)
    (model : Model) (l0 : HTTPListener) (ls : List HTTPListener) (s0 : FullyQualifiedResource)
    (ss : List FullyQualifiedResource)
    (hm : model.HTTP = l0 :: ls) (hs : l0.Sources = s0 :: ss) :
    ∃ cec svc ep,
      DedicatedIngressTranslator.Translate (specEnv gv) d (some model)
        = .returned { cec := some cec, svc := some svc, ep := some ep, err := none } := by
  have hshared : sharedResultFor (specEnv gv) d model s0
      = { cec := some { Name := Sprintf2 ciliumIngressPrefix s0.Name, Namespace := s0.Namespace }
          svc := none, ep := none, err := none } :=
    sharedTranslate_of_first_source _ model l0 ls s0 ss hm hs
  exact Translate_succeeds_of_shared_success (specEnv gv) d model l0 ls s0 ss _ hm hs
    (by rw [hshared]) (by rw [hshared])

/-- C1, witness: the amended statement at the sample model. -/
theorem Translate_succeeds_of_first_source_witness :
    ∃ cec svc ep,
      DedicatedIngressTranslator.Translate (specEnv "networking.k8s.io/v1") sampleTranslator
          (some sampleModel)
        = .returned { cec := some cec, svc := some svc, ep := some ep, err := none } :=
  Translate_succeeds_of_first_source "networking.k8s.io/v1" sampleTranslator sampleModel
    { Sources := [sampleSource] } [] sampleSource [] rfl rfl

/-- C2: for a model that is nil, has no HTTP listener, or whose first HTTP listener has no
source, `Translate` returns the error "model source can't be empty" with nil proxy config,
service and endpoint set, and it does so for every shared translator, so the result does not
depend on it. -/
theorem Translate_empty_model (d : DedicatedIngressTranslator) (m : Option Model)
    (h : m = none ∨ (∃ model, m = some model ∧ model.HTTP = []) ∨
      (∃ model l0 ls, m = some model ∧ model.HTTP = l0 :: ls ∧ l0.Sources = [])) :
    ∀ env : Env,
      DedicatedIngressTranslator.Translate env d m
        = .returned
            { cec := none, svc := none, ep := none
              err := some "model source can't be empty" } := by
  intro env
  rcases h with h | ⟨model, h, hm⟩ | ⟨model, l0, ls, h, hm, hs⟩
  · subst h
    rfl
  · subst h
    simp [DedicatedIngressTranslator.Translate, hm, emptyModelResult, Errorf]
  · subst h
    simp [DedicatedIngressTranslator.Translate, hm, hs, emptyModelResult, Errorf]

/-- C2, witness: the model whose first listener has no source, in the sample environment. -/
theorem Translate_empty_model_witness :
    DedicatedIngressTranslator.Translate sampleEnv sampleTranslator (some laterSourceModel)
      = .returned
          { cec := none, svc := none, ep := none
            err := some "model source can't be empty" } :=
  Translate_empty_model sampleTranslator (some laterSourceModel)
    (Or.inr (Or.inr ⟨laterSourceModel, { Sources := [] }, [{ Sources := [sampleSource] }],
      rfl, rfl, rfl⟩))
    sampleEnv

/-- C3: when `Translate` succeeds, the model has a first listener with a first source
`{Name: n, Namespace: ns, UID: u}`, the returned proxy config is named
`"cilium-ingress-" ++ ns ++ "-" ++ n`, and its only owner reference has UID `u`, whatever the
shared translator had put there. -/
theorem Translate_cec_name_and_owner_uid (env : Env) (d : DedicatedIngressTranslator)
    (m : Option Model) (r : TranslateResult)
    (h : DedicatedIngressTranslator.Translate env d m = .returned r) (hok : r.err = none) :
    ∃ model l0 ls s0 ss cec o, m = some model ∧ model.HTTP = l0 :: ls ∧ l0.Sources = s0 :: ss ∧
      r.cec = some cec ∧ cec.Name = "cilium-ingress-" ++ s0.Namespace ++ "-" ++ s0.Name ∧
      cec.OwnerReferences = [o] ∧ o.UID = s0.UID := by
  obtain ⟨model, l0, ls, s0, ss, cec, hm, hh, hs, -, -, hr⟩ :=
    Translate_success_inv env d m r h hok
  refine ⟨model, l0, ls, s0, ss,
    { cec with
      Name := Sprintf3 ciliumIngressPrefix s0.Namespace s0.Name
      OwnerReferences := [ingressOwnerReference env s0] },
    ingressOwnerReference env s0, hm, hh, hs, ?_, ?_, rfl, rfl⟩
  · rw [hr]
  · simp only [Sprintf3, ciliumIngressPrefix]
    rfl

/-- C3, witness: for the source `{foo, ns, u1}` the proxy config is named
`cilium-ingress-ns-foo` and its owner reference has UID `u1`. -/
theorem Translate_cec_name_and_owner_uid_witness :
    sampleResult.err = none ∧
    ∃ model l0 ls s0 ss cec o, some sampleModel = some model ∧ model.HTTP = l0 :: ls ∧
      l0.Sources = s0 :: ss ∧ sampleResult.cec = some cec ∧
      cec.Name = "cilium-ingress-" ++ s0.Namespace ++ "-" ++ s0.Name ∧
      cec.OwnerReferences = [o] ∧ o.UID = s0.UID :=
  ⟨rfl, Translate_cec_name_and_owner_uid sampleEnv sampleTranslator (some sampleModel)
    sampleResult Translate_sample rfl⟩

/-! ## Change filters -/

/-- C4, counterexample: for two class resources that are identical except for their Status the
update predicate returns true, and for two class resources that differ only in their Spec it
returns false. -/
theorem onlyStatusChanged_class_inverted :
    (sampleClass.ObjectMeta = sampleClassAccepted.ObjectMeta ∧
      sampleClass.Spec = sampleClassAccepted.Spec ∧
      sampleClass.Status ≠ sampleClassAccepted.Status ∧
      onlyStatusChanged.Update
        { ObjectOld := .GatewayClass sampleClass, ObjectNew := .GatewayClass sampleClassAccepted }
        = true) ∧
    (sampleClass.ObjectMeta = sampleClassRespecified.ObjectMeta ∧
      sampleClass.Status = sampleClassRespecified.Status ∧
      sampleClass.Spec ≠ sampleClassRespecified.Spec ∧
      onlyStatusChanged.Update
        { ObjectOld := .GatewayClass sampleClass
          ObjectNew := .GatewayClass sampleClassRespecified }
        = false) := by
  decide

/-- C4, amended: for an update event on two class resources, the update predicate returns true
when their Status differs (in particular when they are identical except for their Status), and
false when their Status is equal (in particular when they differ only in their Spec). -/
theorem onlyStatusChanged_class (o n : gatewayv1beta1.GatewayClass) :
    (o.Status ≠ n.Status →
      onlyStatusChanged.Update { ObjectOld := .GatewayClass o, ObjectNew := .GatewayClass n }
        = true) ∧
    (o.Status = n.Status →
      onlyStatusChanged.Update { ObjectOld := .GatewayClass o, ObjectNew := .GatewayClass n }
        = false) := by
  constructor
  · intro h
    simp [onlyStatusChanged, Funcs.Update, onlyStatusChangedUpdateFunc, cmpEqual, h]
  · intro h
    simp [onlyStatusChanged, Funcs.Update, onlyStatusChangedUpdateFunc, cmpEqual, h]

/-- C4, witness: the status-only update of the sample class is accepted and its spec-only
update is suppressed. -/
theorem onlyStatusChanged_class_witness :
    onlyStatusChanged.Update
        { ObjectOld := .GatewayClass sampleClass, ObjectNew := .GatewayClass sampleClassAccepted }
        = true ∧
    onlyStatusChanged.Update
        { ObjectOld := .GatewayClass sampleClass
          ObjectNew := .GatewayClass sampleClassRespecified }
        = false :=
  ⟨(onlyStatusChanged_class sampleClass sampleClassAccepted).1 (by decide),
   (onlyStatusChanged_class sampleClass sampleClassRespecified).2 (by decide)⟩

/-- C5: the update predicate of `onlyStatusChanged` returns true exactly when the old and the
new object are both class resources, both gateways or both routes and their Status is not
deep-equal; it returns false whenever the old object is a secret or of any other kind. -/
theorem onlyStatusChanged_update_iff (e : UpdateEvent) :
    (onlyStatusChanged.Update e = true ↔
      (∃ o n, e.ObjectOld = .GatewayClass o ∧ e.ObjectNew = .GatewayClass n ∧
        o.Status ≠ n.Status) ∨
      (∃ o n, e.ObjectOld = .Gateway o ∧ e.ObjectNew = .Gateway n ∧ o.Status ≠ n.Status) ∨
      (∃ o n, e.ObjectOld = .HTTPRoute o ∧ e.ObjectNew = .HTTPRoute n ∧
        o.Status ≠ n.Status)) ∧
    (∀ (s : Secret) (new : Object),
      onlyStatusChanged.Update { ObjectOld := .Secret s, ObjectNew := new } = false) ∧
    (∀ (kind : String) (om : ObjectMeta) (new : Object),
      onlyStatusChanged.Update { ObjectOld := .Other kind om, ObjectNew := new } = false) := by
  refine ⟨?_, fun _ _ => rfl, fun _ _ _ => rfl⟩
  obtain ⟨old, new⟩ := e
  cases old <;> cases new <;>
    simp [onlyStatusChanged, Funcs.Update, onlyStatusChangedUpdateFunc, cmpEqual]

/-- C6, failing input: two gateways are listed, `gw-ns/gw1`, which references the secret
`ns/cert-a` with an explicit namespace, and `ns/gw1`, which does not reference it. For every
reference test that accepts the reference, `getGatewaysForSecret` returns the single key
`ns/gw1`: not the identity of the referencing gateway, but that of the other one. -/
theorem getGatewaysForSecret_cross_namespace
    (IsSecret : gatewayv1beta1.SecretObjectReference → Bool)
    (get : NamespacedName → Except GoError gatewayv1beta1.GatewayClass)
    (h : IsSecret { Name := "cert-a", Namespace := some "ns" } = true) :
    getGatewaysForSecret IsSecret
        { GetGatewayClass := get, ListGateways := .ok [gwCross, gwLocal] } (.Secret sampleSecret)
      = [{ Namespace := "ns", Name := "gw1" }] ∧
    ({ Namespace := "ns", Name := "gw1" } : NamespacedName)
      ≠ { Namespace := gwCross.GetNamespace, Name := gwCross.GetName } ∧
    ({ Namespace := "ns", Name := "gw1" } : NamespacedName)
      = { Namespace := gwLocal.GetNamespace, Name := gwLocal.GetName } := by
  refine ⟨?_, by decide, by decide⟩
  have hb : ("cert-b" : String) ≠ "cert-a" := by decide
  simp [getGatewaysForSecret, gwCross, gwLocal, sampleSecret, Object.GetName,
    Object.GetNamespace, Object.meta, namespaceDerefOr, gatewayv1beta1.Gateway.GetName,
    gatewayv1beta1.Gateway.GetNamespace, h, hb]

/-- C6, witness: the failing input in the sample cluster with the sample reference test. -/
theorem getGatewaysForSecret_cross_namespace_witness :
    getGatewaysForSecret sampleIsSecret sampleClient (.Secret sampleSecret)
      = [{ Namespace := "ns", Name := "gw1" }] ∧
    ({ Namespace := "ns", Name := "gw1" } : NamespacedName)
      ≠ { Namespace := gwCross.GetNamespace, Name := gwCross.GetName } ∧
    ({ Namespace := "ns", Name := "gw1" } : NamespacedName)
      = { Namespace := gwLocal.GetNamespace, Name := gwLocal.GetName } :=
  getGatewaysForSecret_cross_namespace sampleIsSecret sampleClient.GetGatewayClass (by decide)

/-- C7: the predicate of `hasMatchingController` accepts an object exactly when it is a
gateway, the point read of the class named by its `Spec.GatewayClassName` succeeds, and that
class declares the given controller name. Hence a gateway whose class declares
`other/controller` is rejected by this controller, and so is a gateway whose class cannot be
read. -/
theorem hasMatchingController_iff (c : Client) (name : String) (obj : Object) :
    (hasMatchingController c name obj = true ↔
      ∃ gw gwc, obj = .Gateway gw ∧
        c.GetGatewayClass { Name := gw.Spec.GatewayClassName } = .ok gwc ∧
        gwc.Spec.ControllerName = name) ∧
    (∀ gw gwc, c.GetGatewayClass { Name := gw.Spec.GatewayClassName } = .ok gwc →
      gwc.Spec.ControllerName = "other/controller" →
      hasMatchingController c controllerName (.Gateway gw) = false) ∧
    (∀ gw err, c.GetGatewayClass { Name := gw.Spec.GatewayClassName } = .error err →
      hasMatchingController c name (.Gateway gw) = false) := by
  refine ⟨?_, ?_, ?_⟩
  · cases obj with
    | Gateway gw =>
      cases hget : c.GetGatewayClass { Name := gw.Spec.GatewayClassName } with
      | error err => simp [hasMatchingController, hget]
      | ok gwc => simp [hasMatchingController, hget]
    | _ => simp [hasMatchingController]
  · intro gw gwc hget hname
    have hne : ("other/controller" : String) ≠ controllerName := by decide
    simp [hasMatchingController, hget, hname, hne]
  · intro gw err hget
    simp [hasMatchingController, hget]

/-- C7, witness: in the sample cluster the gateway of class `cilium` is accepted, the gateway
whose class declares `other/controller` is rejected, and the gateway whose class is missing is
rejected. -/
theorem hasMatchingController_iff_witness :
    hasMatchingController sampleClient controllerName (.Gateway gwCross) = true ∧
    hasMatchingController sampleClient controllerName (.Gateway gwLocal) = false ∧
    hasMatchingController sampleClient controllerName (.Gateway gwOrphan) = false :=
  ⟨(hasMatchingController_iff sampleClient controllerName (.Gateway gwCross)).1.2
      ⟨gwCross, sampleClass, rfl, rfl, by decide⟩,
   (hasMatchingController_iff sampleClient controllerName (.Gateway gwLocal)).2.1
      gwLocal otherClass rfl (by decide),
   (hasMatchingController_iff sampleClient controllerName (.Gateway gwOrphan)).2.2
      gwOrphan "gatewayclasses.gateway.networking.k8s.io not found" rfl⟩

/-! ## Translation: service and endpoints -/

/-- C8: the endpoint set built by `getEndpoints` for any source, and the endpoint set returned
by any successful `Translate`, has exactly one subset, holding the single address
`192.192.192.192`, no not-ready address, and the single port 9999. -/
theorem getEndpoints_placeholder :
    (∀ (env : Env) (resource : FullyQualifiedResource),
      (getEndpoints env resource).Subsets
        = [{ Addresses := [{ IP := "192.192.192.192" }]
             NotReadyAddresses := []
             Ports := [{ Port := 9999 }] }]) ∧
    (∀ (env : Env) (d : DedicatedIngressTranslator) (m : Option Model) (r : TranslateResult),
      DedicatedIngressTranslator.Translate env d m = .returned r → r.err = none →
      ∃ ep, r.ep = some ep ∧
        ep.Subsets
          = [{ Addresses := [{ IP := "192.192.192.192" }]
               NotReadyAddresses := []
               Ports := [{ Port := 9999 }] }]) := by
  refine ⟨fun _ _ => rfl, ?_⟩
  intro env d m r h hok
  obtain ⟨model, l0, ls, s0, ss, cec, -, -, -, -, -, hr⟩ := Translate_success_inv env d m r h hok
  exact ⟨getEndpoints env s0, by rw [hr], rfl⟩

/-- C8, witness: the endpoint set derived from the sample model. -/
theorem getEndpoints_placeholder_witness :
    ∃ ep, sampleResult.ep = some ep ∧
      ep.Subsets
        = [{ Addresses := [{ IP := "192.192.192.192" }]
             NotReadyAddresses := []
             Ports := [{ Port := 9999 }] }] :=
  getEndpoints_placeholder.2 sampleEnv sampleTranslator (some sampleModel) sampleResult
    Translate_sample rfl

/-- C9: the service built by `getService` for any source, and the service returned by any
successful `Translate`, has type `LoadBalancer` and exactly the two ports `http` 80/TCP and
`https` 443/TCP, in this order. -/
theorem getService_spec :
    (∀ (env : Env) (resource : FullyQualifiedResource),
      (getService env resource).Spec
        = { Type_ := "LoadBalancer"
            Ports := [{ Name := "http", Protocol := "TCP", Port := 80 },
                      { Name := "https", Protocol := "TCP", Port := 443 }] }) ∧
    (∀ (env : Env) (d : DedicatedIngressTranslator) (m : Option Model) (r : TranslateResult),
      DedicatedIngressTranslator.Translate env d m = .returned r → r.err = none →
      ∃ svc, r.svc = some svc ∧
        svc.Spec
          = { Type_ := "LoadBalancer"
              Ports := [{ Name := "http", Protocol := "TCP", Port := 80 },
                        { Name := "https", Protocol := "TCP", Port := 443 }] }) := by
  refine ⟨fun _ _ => rfl, ?_⟩
  intro env d m r h hok
  obtain ⟨model, l0, ls, s0, ss, cec, -, -, -, -, -, hr⟩ := Translate_success_inv env d m r h hok
  exact ⟨getService env s0, by rw [hr], rfl⟩

/-- C9, witness: the service derived from the sample model. -/
theorem getService_spec_witness :
    ∃ svc, sampleResult.svc = some svc ∧
      svc.Spec
        = { Type_ := "LoadBalancer"
            Ports := [{ Name := "http", Protocol := "TCP", Port := 80 },
                      { Name := "https", Protocol := "TCP", Port := 443 }] } :=
  getService_spec.2 sampleEnv sampleTranslator (some sampleModel) sampleResult
    Translate_sample rfl

/-- The outcome of `Translate` depends on the environment only through the rendering of the
group version and the values the shared translator returns on the model. -/
theorem Translate_congr_env (env1 env2 : Env) (d : DedicatedIngressTranslator)
    (m : Option Model) (hgv : env1.SchemeGroupVersion = env2.SchemeGroupVersion)
    (hshared : ∀ t, env1.sharedTranslate t m = env2.sharedTranslate t m) :
    DedicatedIngressTranslator.Translate env1 d m
      = DedicatedIngressTranslator.Translate env2 d m := by
  cases m with
  | none => rfl
  | some model =>
    cases hm : model.HTTP with
    | nil => simp [DedicatedIngressTranslator.Translate, hm]
    | cons l0 ls =>
      cases hs : l0.Sources with
      | nil => simp [DedicatedIngressTranslator.Translate, hm, hs]
      | cons s0 ss =>
        rw [Translate_of_first_source env1 d model l0 ls s0 ss hm hs,
          Translate_of_first_source env2 d model l0 ls s0 ss hm hs]
        have hres : sharedResultFor env1 d model s0 = sharedResultFor env2 d model s0 :=
          hshared _
        have hsvc : getService env1 s0 = getService env2 s0 := by simp [getService, hgv]
        have hep : getEndpoints env1 s0 = getEndpoints env2 s0 := by simp [getEndpoints, hgv]
        have hown : ingressOwnerReference env1 s0 = ingressOwnerReference env2 s0 := by
          simp [ingressOwnerReference, hgv]
        rw [hres, hsvc, hep, hown]

/-! ## Reverse mapping: the loops as concatenations -/

/-- A left fold whose step appends `f x` to the accumulator concatenates the `f x`. -/
theorem foldl_append_flatMap {α β : Type} (f : α → List β) (g : List β → α → List β)
    (hg : ∀ acc x, g acc x = acc ++ f x) (xs : List α) (init : List β) :
    xs.foldl g init = init ++ xs.flatMap f := by
  induction xs generalizing init with
  | nil => simp
  | cons x xs ih => simp [List.foldl_cons, ih, hg, List.flatMap_cons, List.append_assoc]

/-- The result of `getGatewaysForSecret` is empty when the list call fails, and otherwise the
concatenation, over the listed gateways in order, of the keys of each gateway. -/
theorem getGatewaysForSecret_eq_flatMap
    (IsSecret : gatewayv1beta1.SecretObjectReference → Bool) (c : Client) (obj : Object) :
    getGatewaysForSecret IsSecret c obj =
      match c.ListGateways with
      | .error _ => []
      | .ok gwList => gwList.flatMap (gatewayKeys IsSecret obj) := by
  unfold getGatewaysForSecret
  cases c.ListGateways with
  | error err => rfl
  | ok gwList =>
    simp only
    rw [foldl_append_flatMap (gatewayKeys IsSecret obj)]
    · simp
    · intro acc gw
      unfold gatewayKeys
      rw [foldl_append_flatMap (listenerKeys IsSecret obj gw)]
      intro acc l
      unfold listenerKeys
      cases l.TLS with
      | none => simp
      | some tls =>
        simp only
        rw [foldl_append_flatMap (certKeys IsSecret obj gw)]
        intro acc cert
        unfold certKeys
        cases hsec : IsSecret cert <;> by_cases hn : cert.Name = obj.GetName <;>
          by_cases hns : namespaceDerefOr cert.Namespace gw.GetNamespace = obj.GetNamespace <;>
          simp [hn, hns]

/-- Every key returned by `getGatewaysForSecret` carries the namespace of the secret. -/
theorem getGatewaysForSecret_namespace
    (IsSecret : gatewayv1beta1.SecretObjectReference → Bool) (c : Client) (obj : Object)
    (k : NamespacedName) (hk : k ∈ getGatewaysForSecret IsSecret c obj) :
    k.Namespace = obj.GetNamespace := by
  rw [getGatewaysForSecret_eq_flatMap] at hk
  cases hl : c.ListGateways with
  | error err => simp [hl] at hk
  | ok gwList =>
    simp only [hl, List.mem_flatMap] at hk
    obtain ⟨gw, -, hk⟩ := hk
    simp only [gatewayKeys, List.mem_flatMap] at hk
    obtain ⟨l, -, hk⟩ := hk
    unfold listenerKeys at hk
    cases ht : l.TLS with
    | none => simp [ht] at hk
    | some tls =>
      simp only [ht, List.mem_flatMap] at hk
      obtain ⟨cert, -, hk⟩ := hk
      unfold certKeys at hk
      split at hk
      · next hmatch =>
        simp only [List.mem_singleton] at hk
        rw [hk]
        exact hmatch.2.2
      · simp at hk

/-! ## Translation: ownership, naming, namespace and labels -/

/-- C11: when `Translate` succeeds, the proxy config, the service and the endpoint set each
carry exactly one owner reference, the same for all three: kind `Ingress`, the networking
group version as API version, and the name and UID of the first listener's first source. -/
theorem Translate_owner_references (env : Env) (d : DedicatedIngressTranslator)
    (m : Option Model) (r : TranslateResult)
    (h : DedicatedIngressTranslator.Translate env d m = .returned r) (hok : r.err = none) :
    ∃ model l0 ls s0 ss cec svc ep o, m = some model ∧ model.HTTP = l0 :: ls ∧
      l0.Sources = s0 :: ss ∧ r.cec = some cec ∧ r.svc = some svc ∧ r.ep = some ep ∧
      o.Kind = "Ingress" ∧ o.APIVersion = env.SchemeGroupVersion ∧ o.Name = s0.Name ∧
      o.UID = s0.UID ∧ cec.OwnerReferences = [o] ∧ svc.ObjectMeta.OwnerReferences = [o] ∧
      ep.ObjectMeta.OwnerReferences = [o] := by
  obtain ⟨model, l0, ls, s0, ss, cec, hm, hh, hs, -, -, hr⟩ :=
    Translate_success_inv env d m r h hok
  refine ⟨model, l0, ls, s0, ss,
    { cec with
      Name := Sprintf3 ciliumIngressPrefix s0.Namespace s0.Name
      OwnerReferences := [ingressOwnerReference env s0] },
    getService env s0, getEndpoints env s0, ingressOwnerReference env s0,
    hm, hh, hs, ?_, ?_, ?_, rfl, rfl, rfl, rfl, rfl, rfl, rfl⟩ <;> rw [hr]

/-- C11, witness: the three resources derived from the sample model are owned by the ingress
`foo` with UID `u1`. -/
theorem Translate_owner_references_witness :
    ∃ model l0 ls s0 ss cec svc ep o, some sampleModel = some model ∧ model.HTTP = l0 :: ls ∧
      l0.Sources = s0 :: ss ∧ sampleResult.cec = some cec ∧ sampleResult.svc = some svc ∧
      sampleResult.ep = some ep ∧
      o.Kind = "Ingress" ∧ o.APIVersion = sampleEnv.SchemeGroupVersion ∧ o.Name = s0.Name ∧
      o.UID = s0.UID ∧ cec.OwnerReferences = [o] ∧ svc.ObjectMeta.OwnerReferences = [o] ∧
      ep.ObjectMeta.OwnerReferences = [o] :=
  Translate_owner_references sampleEnv sampleTranslator (some sampleModel) sampleResult
    Translate_sample rfl

/-- C12, counterexample: translating the sample model, whose source is `foo` in the namespace
`ns`, succeeds and names both the service and the endpoint set `cilium-ingress-foo`. That name
is not the prefix followed by the namespace and then the name, with any separators. -/
theorem Translate_service_name_lacks_namespace :
    DedicatedIngressTranslator.Translate sampleEnv sampleTranslator (some sampleModel)
      = .returned sampleResult ∧
    sampleResult.err = none ∧
    ∃ svc ep, sampleResult.svc = some svc ∧ sampleResult.ep = some ep ∧
      svc.ObjectMeta.Name = "cilium-ingress-foo" ∧ ep.ObjectMeta.Name = "cilium-ingress-foo" ∧
      ∀ a b : String,
        svc.ObjectMeta.Name
          ≠ ciliumIngressPrefix ++ a ++ sampleSource.Namespace ++ b ++ sampleSource.Name := by
  refine ⟨Translate_sample, rfl, getService sampleEnv sampleSource,
    getEndpoints sampleEnv sampleSource, rfl, rfl, by decide, by decide, ?_⟩
  intro a b hab
  have hlen := congrArg String.length hab
  have h1 : (getService sampleEnv sampleSource).ObjectMeta.Name.length = 18 := by decide
  have h2 : ciliumIngressPrefix.length = 14 := by decide
  have h3 : sampleSource.Namespace.length = 2 := by decide
  have h4 : sampleSource.Name.length = 3 := by decide
  simp only [String.length_append, h1, h2, h3, h4] at hlen
  omega

/-- C12, amended: when `Translate` succeeds, the proxy config is named by the prefix, the first
source's namespace and its name, `"cilium-ingress-" ++ ns ++ "-" ++ n`, while the service and
the endpoint set are named by the prefix and the name only, `"cilium-ingress-" ++ n`. -/
theorem Translate_resource_names (env : Env) (d : DedicatedIngressTranslator)
    (m : Option Model) (r : TranslateResult)
    (h : DedicatedIngressTranslator.Translate env d m = .returned r) (hok : r.err = none) :
    ∃ model l0 ls s0 ss cec svc ep, m = some model ∧ model.HTTP = l0 :: ls ∧
      l0.Sources = s0 :: ss ∧ r.cec = some cec ∧ r.svc = some svc ∧ r.ep = some ep ∧
      cec.Name = "cilium-ingress-" ++ s0.Namespace ++ "-" ++ s0.Name ∧
      svc.ObjectMeta.Name = "cilium-ingress-" ++ s0.Name ∧
      ep.ObjectMeta.Name = "cilium-ingress-" ++ s0.Name := by
  obtain ⟨model, l0, ls, s0, ss, cec, hm, hh, hs, -, -, hr⟩ :=
    Translate_success_inv env d m r h hok
  refine ⟨model, l0, ls, s0, ss,
    { cec with
      Name := Sprintf3 ciliumIngressPrefix s0.Namespace s0.Name
      OwnerReferences := [ingressOwnerReference env s0] },
    getService env s0, getEndpoints env s0, hm, hh, hs, ?_, ?_, ?_, rfl, rfl, rfl⟩ <;> rw [hr]

/-- C12, witness: the names of the three resources derived from the sample model. -/
theorem Translate_resource_names_witness :
    ∃ model l0 ls s0 ss cec svc ep, some sampleModel = some model ∧ model.HTTP = l0 :: ls ∧
      l0.Sources = s0 :: ss ∧ sampleResult.cec = some cec ∧ sampleResult.svc = some svc ∧
      sampleResult.ep = some ep ∧
      cec.Name = "cilium-ingress-" ++ s0.Namespace ++ "-" ++ s0.Name ∧
      svc.ObjectMeta.Name = "cilium-ingress-" ++ s0.Name ∧
      ep.ObjectMeta.Name = "cilium-ingress-" ++ s0.Name :=
  Translate_resource_names sampleEnv sampleTranslator (some sampleModel) sampleResult
    Translate_sample rfl

/-- C13: for every source, the service of `getService` and the endpoint set of `getEndpoints`
have the source's namespace, and their label map is exactly `cilium.io/ingress` mapped to
`true`. -/
theorem getService_getEndpoints_namespace_labels (env : Env)
    (resource : FullyQualifiedResource) :
    (getService env resource).ObjectMeta.Namespace = resource.Namespace ∧
    (getEndpoints env resource).ObjectMeta.Namespace = resource.Namespace ∧
    (getService env resource).ObjectMeta.Labels = [("cilium.io/ingress", "true")] ∧
    (getEndpoints env resource).ObjectMeta.Labels = [("cilium.io/ingress", "true")] :=
  ⟨rfl, rfl, rfl, rfl⟩

/-- C20: for every source, the service of `getService` and the endpoint set of `getEndpoints`
have the same name, `"cilium-ingress-" ++ Name`, and the same namespace. -/
theorem getService_getEndpoints_same_key (env : Env) (resource : FullyQualifiedResource) :
    (getService env resource).ObjectMeta.Name = "cilium-ingress-" ++ resource.Name ∧
    (getEndpoints env resource).ObjectMeta.Name = "cilium-ingress-" ++ resource.Name ∧
    (getService env resource).ObjectMeta.Name = (getEndpoints env resource).ObjectMeta.Name ∧
    (getService env resource).ObjectMeta.Namespace
      = (getEndpoints env resource).ObjectMeta.Namespace :=
  ⟨rfl, rfl, rfl, rfl⟩

/-! ## Reverse mapping: matches, empty results and repeated keys -/

/-- A key is appended for the gateway `gw` exactly when one of the certificate references of
one of its TLS listeners passes the reference test and has the secret's name and, once
resolved, the secret's namespace; the key carries the resolved namespace and the gateway's
name. -/
theorem mem_gatewayKeys (IsSecret : gatewayv1beta1.SecretObjectReference → Bool)
    (obj : Object) (gw : gatewayv1beta1.Gateway) (k : NamespacedName) :
    k ∈ gatewayKeys IsSecret obj gw ↔
      ∃ l ∈ gw.Spec.Listeners, ∃ tls, l.TLS = some tls ∧ ∃ cert ∈ tls.CertificateRefs,
        IsSecret cert = true ∧ cert.Name = obj.GetName ∧
        namespaceDerefOr cert.Namespace gw.GetNamespace = obj.GetNamespace ∧
        k = { Namespace := namespaceDerefOr cert.Namespace gw.GetNamespace
              Name := gw.GetName } := by
  simp only [gatewayKeys, List.mem_flatMap]
  constructor
  · rintro ⟨l, hl, hk⟩
    unfold listenerKeys at hk
    cases ht : l.TLS with
    | none => simp [ht] at hk
    | some tls =>
      simp only [ht, List.mem_flatMap] at hk
      obtain ⟨cert, hc, hk⟩ := hk
      unfold certKeys at hk
      split at hk
      · next hmatch =>
        simp only [List.mem_singleton] at hk
        exact ⟨l, hl, tls, ht, cert, hc, hmatch.1, hmatch.2.1, hmatch.2.2, hk⟩
      · simp at hk
  · rintro ⟨l, hl, tls, ht, cert, hc, h1, h2, h3, hk⟩
    refine ⟨l, hl, ?_⟩
    unfold listenerKeys
    simp only [ht, List.mem_flatMap]
    refine ⟨cert, hc, ?_⟩
    unfold certKeys
    rw [if_pos ⟨h1, h2, h3⟩, hk]
    exact List.mem_singleton.mpr rfl

/-- C14: `getGatewaysForSecret` returns the empty list when the list call fails, when the listed
collection is empty, when no listener of any listed gateway has TLS configured, and more
generally whenever no certificate reference of any listed gateway matches the secret. -/
theorem getGatewaysForSecret_empty (IsSecret : gatewayv1beta1.SecretObjectReference → Bool)
    (c : Client) (obj : Object) :
    (∀ err, c.ListGateways = .error err → getGatewaysForSecret IsSecret c obj = []) ∧
    (c.ListGateways = .ok [] → getGatewaysForSecret IsSecret c obj = []) ∧
    (∀ gwList, c.ListGateways = .ok gwList →
      (∀ gw ∈ gwList, ∀ l ∈ gw.Spec.Listeners, l.TLS = none) →
      getGatewaysForSecret IsSecret c obj = []) ∧
    (∀ gwList, c.ListGateways = .ok gwList →
      (∀ gw ∈ gwList, ∀ l ∈ gw.Spec.Listeners, ∀ tls, l.TLS = some tls →
        ∀ cert ∈ tls.CertificateRefs,
          ¬ (IsSecret cert = true ∧ cert.Name = obj.GetName ∧
            namespaceDerefOr cert.Namespace gw.GetNamespace = obj.GetNamespace)) →
      getGatewaysForSecret IsSecret c obj = []) := by
  have hgen : ∀ gwList, c.ListGateways = .ok gwList →
      (∀ gw ∈ gwList, ∀ l ∈ gw.Spec.Listeners, ∀ tls, l.TLS = some tls →
        ∀ cert ∈ tls.CertificateRefs,
          ¬ (IsSecret cert = true ∧ cert.Name = obj.GetName ∧
            namespaceDerefOr cert.Namespace gw.GetNamespace = obj.GetNamespace)) →
      getGatewaysForSecret IsSecret c obj = [] := by
    intro gwList hl hno
    rw [getGatewaysForSecret_eq_flatMap, hl]
    apply List.eq_nil_iff_forall_not_mem.mpr
    intro k hk
    simp only [List.mem_flatMap] at hk
    obtain ⟨gw, hgw, hk⟩ := hk
    obtain ⟨l, hlm, tls, ht, cert, hc, h1, h2, h3, -⟩ := (mem_gatewayKeys IsSecret obj gw k).mp hk
    exact hno gw hgw l hlm tls ht cert hc ⟨h1, h2, h3⟩
  refine ⟨?_, ?_, ?_, hgen⟩
  · intro err hl
    rw [getGatewaysForSecret_eq_flatMap, hl]
  · intro hl
    exact hgen [] hl (fun gw hgw => absurd hgw (List.not_mem_nil gw))
  · intro gwList hl hno
    refine hgen gwList hl ?_
    intro gw hgw l hlm tls ht
    rw [hno gw hgw l hlm] at ht
    cases ht

/-- C14, witness: a failed list call gives the empty list, and so does the sample cluster
reduced to the gateway `ns/gw1`, which references `cert-b` only, for the secret `ns/cert-a`. -/
theorem getGatewaysForSecret_empty_witness :
    getGatewaysForSecret sampleIsSecret
        { GetGatewayClass := sampleClient.GetGatewayClass
          ListGateways := .error "the server is currently unable to handle the request" }
        (.Secret sampleSecret) = [] ∧
    getGatewaysForSecret sampleIsSecret
        { GetGatewayClass := sampleClient.GetGatewayClass, ListGateways := .ok [gwLocal] }
        (.Secret sampleSecret) = [] :=
  ⟨(getGatewaysForSecret_empty sampleIsSecret
      { GetGatewayClass := sampleClient.GetGatewayClass
        ListGateways := .error "the server is currently unable to handle the request" }
      (.Secret sampleSecret)).1 _ rfl,
   (getGatewaysForSecret_empty sampleIsSecret
      { GetGatewayClass := sampleClient.GetGatewayClass, ListGateways := .ok [gwLocal] }
      (.Secret sampleSecret)).2.2.2 [gwLocal] rfl (by
        intro gw hgw l hl tls ht cert hc
        simp only [List.mem_singleton] at hgw
        subst hgw
        simp only [gwLocal, List.mem_singleton] at hl
        subst hl
        simp only [Option.some.injEq] at ht
        subst ht
        simp only [List.mem_singleton] at hc
        subst hc
        decide)⟩

/-- Concatenating lists that are each empty or the singleton `[g x]` gives a sublist of the
image under `g`. -/
theorem flatMap_sublist_map {α β : Type} (f : α → List β) (g : α → β) (xs : List α)
    (h : ∀ x ∈ xs, f x = [] ∨ f x = [g x]) : (xs.flatMap f).Sublist (xs.map g) := by
  induction xs with
  | nil => simp
  | cons x xs ih =>
    have ih2 := ih (fun y hy => h y (List.mem_cons_of_mem x hy))
    rw [List.flatMap_cons, List.map_cons]
    rcases h x (List.mem_cons_self x xs) with hx | hx
    · rw [hx]
      exact List.Sublist.cons _ ih2
    · rw [hx]
      exact List.Sublist.cons₂ _ ih2

/-- C16, counterexample: for the single listed gateway `ns/gw2`, which references the secret
`ns/cert-a` from two listeners, `getGatewaysForSecret` returns the key `ns/gw2` twice. -/
theorem getGatewaysForSecret_repeats_key :
    getGatewaysForSecret sampleIsSecret
        { GetGatewayClass := sampleClient.GetGatewayClass, ListGateways := .ok [gwTwice] }
        (.Secret sampleSecret)
      = [{ Namespace := "ns", Name := "gw2" }, { Namespace := "ns", Name := "gw2" }] ∧
    ([gwTwice].map gatewayIdentity).Nodup ∧
    ¬ (getGatewaysForSecret sampleIsSecret
        { GetGatewayClass := sampleClient.GetGatewayClass, ListGateways := .ok [gwTwice] }
        (.Secret sampleSecret)).Nodup := by
  decide

/-- C16, amended: when the listed gateways have distinct identities, the function appends at
most one key for each of them (each has at most one certificate reference matching the
secret), and every appended key carries the gateway's own namespace (the matching reference
resolves to it), then no key appears more than once in the result. -/
theorem getGatewaysForSecret_nodup (IsSecret : gatewayv1beta1.SecretObjectReference → Bool)
    (c : Client) (obj : Object) (gwList : List gatewayv1beta1.Gateway)
    (hl : c.ListGateways = .ok gwList)
    (hids : (gwList.map gatewayIdentity).Nodup)
    (hone : ∀ gw ∈ gwList, (gatewayKeys IsSecret obj gw).length ≤ 1)
    (hown : ∀ gw ∈ gwList, ∀ k ∈ gatewayKeys IsSecret obj gw, k.Namespace = gw.GetNamespace) :
    (getGatewaysForSecret IsSecret c obj).Nodup := by
  rw [getGatewaysForSecret_eq_flatMap, hl]
  refine List.Nodup.sublist (flatMap_sublist_map _ gatewayIdentity gwList ?_) hids
  intro gw hgw
  cases hk : gatewayKeys IsSecret obj gw with
  | nil => exact Or.inl rfl
  | cons k ks =>
    right
    have hlen := hone gw hgw
    rw [hk] at hlen
    have hks : ks = [] := by
      cases ks with
      | nil => rfl
      | cons k2 ks2 => simp at hlen
    have hmem : k ∈ gatewayKeys IsSecret obj gw := by
      rw [hk]
      exact List.mem_cons_self k ks
    have hns := hown gw hgw k hmem
    obtain ⟨l, -, tls, -, cert, -, -, -, -, hkey⟩ := (mem_gatewayKeys IsSecret obj gw k).mp hmem
    have hname : k.Name = gw.GetName := by rw [hkey]
    rw [hks]
    obtain ⟨kns, kname⟩ := k
    have h1 : kns = gw.GetNamespace := hns
    have h2 : kname = gw.GetName := hname
    rw [h1, h2]
    rfl

/-- C16, witness: the gateways `ns/gw4`, with one reference to `ns/cert-a`, and `ns/gw1`, with
none, are listed; the result has no repeated key. -/
theorem getGatewaysForSecret_nodup_witness :
    (getGatewaysForSecret sampleIsSecret
        { GetGatewayClass := sampleClient.GetGatewayClass, ListGateways := .ok [gwOnce, gwLocal] }
        (.Secret sampleSecret)).Nodup :=
  getGatewaysForSecret_nodup sampleIsSecret
    { GetGatewayClass := sampleClient.GetGatewayClass, ListGateways := .ok [gwOnce, gwLocal] }
    (.Secret sampleSecret) [gwOnce, gwLocal] rfl (by decide) (by decide) (by decide)

/-- The result for a single listed gateway whose only listener has TLS with a single
certificate reference that passes the reference test and has the secret's name: one key,
carrying the resolved namespace, when that namespace is the secret's, and nothing otherwise. -/
theorem getGatewaysForSecret_single_reference
    (IsSecret : gatewayv1beta1.SecretObjectReference → Bool)
    (get : NamespacedName → Except GoError gatewayv1beta1.GatewayClass)
    (gw : gatewayv1beta1.Gateway) (l : gatewayv1beta1.Listener)
    (tls : gatewayv1beta1.GatewayTLSConfig) (cert : gatewayv1beta1.SecretObjectReference)
    (secret : Secret) (hl : gw.Spec.Listeners = [l]) (ht : l.TLS = some tls)
    (hc : tls.CertificateRefs = [cert]) (hsec : IsSecret cert = true)
    (hname : cert.Name = secret.ObjectMeta.Name) :
    getGatewaysForSecret IsSecret { GetGatewayClass := get, ListGateways := .ok [gw] }
        (.Secret secret)
      = if namespaceDerefOr cert.Namespace gw.GetNamespace = secret.ObjectMeta.Namespace then
          [{ Namespace := namespaceDerefOr cert.Namespace gw.GetNamespace, Name := gw.GetName }]
        else [] := by
  rw [getGatewaysForSecret_eq_flatMap]
  simp only [List.flatMap_cons, List.flatMap_nil, List.append_nil, gatewayKeys, listenerKeys,
    certKeys, hl, ht, hc, hsec, hname, Object.GetName, Object.GetNamespace, Object.meta,
    true_and]

/-- C17: a single gateway is listed; its only listener has TLS with a single certificate
reference that passes the reference test and has the secret's name. If the reference has no
explicit namespace, the gateway's identity is returned exactly when the gateway's namespace is
the secret's. If the reference has the explicit namespace `e`, the result is the key made of
`e` and the gateway's name when `e` is the secret's namespace and is empty otherwise, so the
gateway's identity is returned only when, in addition, the gateway's own namespace is `e`. -/
theorem getGatewaysForSecret_namespace_resolution
    (IsSecret : gatewayv1beta1.SecretObjectReference → Bool)
    (get : NamespacedName → Except GoError gatewayv1beta1.GatewayClass)
    (gw : gatewayv1beta1.Gateway) (l : gatewayv1beta1.Listener)
    (tls : gatewayv1beta1.GatewayTLSConfig) (cert : gatewayv1beta1.SecretObjectReference)
    (secret : Secret) (hl : gw.Spec.Listeners = [l]) (ht : l.TLS = some tls)
    (hc : tls.CertificateRefs = [cert]) (hsec : IsSecret cert = true)
    (hname : cert.Name = secret.ObjectMeta.Name) :
    (cert.Namespace = none →
      (gatewayIdentity gw ∈
          getGatewaysForSecret IsSecret { GetGatewayClass := get, ListGateways := .ok [gw] }
            (.Secret secret)
        ↔ gw.GetNamespace = secret.ObjectMeta.Namespace)) ∧
    (∀ e, cert.Namespace = some e →
      getGatewaysForSecret IsSecret { GetGatewayClass := get, ListGateways := .ok [gw] }
          (.Secret secret)
        = (if e = secret.ObjectMeta.Namespace then [{ Namespace := e, Name := gw.GetName }]
           else []) ∧
      (gatewayIdentity gw ∈
          getGatewaysForSecret IsSecret { GetGatewayClass := get, ListGateways := .ok [gw] }
            (.Secret secret)
        ↔ e = secret.ObjectMeta.Namespace ∧ gw.GetNamespace = e)) := by
  have hres := getGatewaysForSecret_single_reference IsSecret get gw l tls cert secret hl ht hc
    hsec hname
  constructor
  · intro hns
    rw [hres, hns]
    simp only [namespaceDerefOr]
    by_cases h : gw.GetNamespace = secret.ObjectMeta.Namespace
    · simp [h, gatewayIdentity]
    · simp [h]
  · intro e hns
    rw [hres, hns]
    simp only [namespaceDerefOr]
    refine ⟨trivial, ?_⟩
    by_cases h : e = secret.ObjectMeta.Namespace
    · simp only [h, if_true, List.mem_singleton, gatewayIdentity, true_and]
      constructor
      · intro hk
        exact congrArg NamespacedName.Namespace hk
      · intro hk
        rw [hk]
    · simp [h]

/-- C17, witness: the gateway `gw-ns/gw1` references the secret `ns/cert-a` with the explicit
namespace `ns`, which is the secret's namespace, and its identity is not returned; the
gateway `ns/gw4` references it without a namespace and its identity is returned. -/
theorem getGatewaysForSecret_namespace_resolution_witness :
    ("ns" = sampleSecret.ObjectMeta.Namespace ∧
      gatewayIdentity gwCross ∉
        getGatewaysForSecret sampleIsSecret
          { GetGatewayClass := sampleClient.GetGatewayClass, ListGateways := .ok [gwCross] }
          (.Secret sampleSecret)) ∧
    gatewayIdentity gwOnce ∈
      getGatewaysForSecret sampleIsSecret
        { GetGatewayClass := sampleClient.GetGatewayClass, ListGateways := .ok [gwOnce] }
        (.Secret sampleSecret) :=
  ⟨⟨rfl, fun hmem =>
      absurd
        (((getGatewaysForSecret_namespace_resolution sampleIsSecret sampleClient.GetGatewayClass
          gwCross _ _ _ sampleSecret rfl rfl rfl (by decide) rfl).2 "ns" rfl).2.mp hmem).2
        (by decide)⟩,
   ((getGatewaysForSecret_namespace_resolution sampleIsSecret sampleClient.GetGatewayClass
      gwOnce _ _ _ sampleSecret rfl rfl rfl (by decide) rfl).1 rfl).mpr rfl⟩

/-! ## Translation: dependence on the first source, shared errors and the frame -/

theorem Translate_rich :
    DedicatedIngressTranslator.Translate sampleEnvFull sampleTranslator (some richModel)
      = .returned richResult := by
  decide

/-- C15: for two successful translations of two models whose first listeners have the same
first source, made with any two translator configurations and any two shared translators
under the same group version, the services are equal, the endpoint sets are equal, and the
proxy configs have the same name and the same owner references. -/
theorem Translate_depends_on_first_source (env1 env2 : Env)
    (d1 d2 : DedicatedIngressTranslator) (model1 model2 : Model) (l1 l2 : HTTPListener)
    (ls1 ls2 : List HTTPListener) (s0 : FullyQualifiedResource)
    (ss1 ss2 : List FullyQualifiedResource) (r1 r2 : TranslateResult)
    (hgv : env1.SchemeGroupVersion = env2.SchemeGroupVersion)
    (hm1 : model1.HTTP = l1 :: ls1) (hs1 : l1.Sources = s0 :: ss1)
    (hm2 : model2.HTTP = l2 :: ls2) (hs2 : l2.Sources = s0 :: ss2)
    (h1 : DedicatedIngressTranslator.Translate env1 d1 (some model1) = .returned r1)
    (hok1 : r1.err = none)
    (h2 : DedicatedIngressTranslator.Translate env2 d2 (some model2) = .returned r2)
    (hok2 : r2.err = none) :
    r1.svc = r2.svc ∧ r1.ep = r2.ep ∧
    ∃ c1 c2, r1.cec = some c1 ∧ r2.cec = some c2 ∧ c1.Name = c2.Name ∧
      c1.OwnerReferences = c2.OwnerReferences := by
  obtain ⟨m1, a1, as1, t1, ts1, cec1, hm1b, hh1, hss1, -, -, hr1⟩ :=
    Translate_success_inv env1 d1 (some model1) r1 h1 hok1
  obtain ⟨m2, a2, as2, t2, ts2, cec2, hm2b, hh2, hss2, -, -, hr2⟩ :=
    Translate_success_inv env2 d2 (some model2) r2 h2 hok2
  cases hm1b
  cases hm2b
  rw [hm1] at hh1
  rw [hm2] at hh2
  cases hh1
  cases hh2
  rw [hs1] at hss1
  rw [hs2] at hss2
  cases hss1
  cases hss2
  have hsvc : getService env1 s0 = getService env2 s0 := by simp [getService, hgv]
  have hep : getEndpoints env1 s0 = getEndpoints env2 s0 := by simp [getEndpoints, hgv]
  have hown : ingressOwnerReference env1 s0 = ingressOwnerReference env2 s0 := by
    simp [ingressOwnerReference, hgv]
  rw [hr1, hr2]
  refine ⟨by rw [hsvc], by rw [hep], _, _, rfl, rfl, rfl, ?_⟩
  simp only [hown]

/-- C15, witness: the sample model and `richModel` share their first source; translated with
two different shared translators they give the same service, endpoint set, proxy-config name
and owner references. -/
theorem Translate_depends_on_first_source_witness :
    sampleResult.svc = richResult.svc ∧ sampleResult.ep = richResult.ep ∧
    ∃ c1 c2, sampleResult.cec = some c1 ∧ richResult.cec = some c2 ∧ c1.Name = c2.Name ∧
      c1.OwnerReferences = c2.OwnerReferences :=
  Translate_depends_on_first_source sampleEnv sampleEnvFull sampleTranslator sampleTranslator
    sampleModel richModel _ _ _ _ sampleSource _ _ sampleResult richResult rfl rfl rfl rfl rfl
    Translate_sample rfl Translate_rich rfl

/-- C18: when the model has a first listener with a first source and the shared translator,
constructed for that source, returns an error, `Translate` returns that error with nil proxy
config, service and endpoint set, whatever else the shared translator returned. -/
theorem Translate_shared_error (env : Env) (d : DedicatedIngressTranslator) (model : Model)
    (l0 : HTTPListener) (ls : List HTTPListener) (s0 : FullyQualifiedResource)
    (ss : List FullyQualifiedResource) (err : GoError)
    (hm : model.HTTP = l0 :: ls) (hs : l0.Sources = s0 :: ss)
    (herr : (env.sharedTranslate
      (NewSharedIngressTranslator ("cilium-ingress-" ++ s0.Name) s0.Namespace
        d.secretsNamespace d.enforceHTTPs) (some model)).err = some err) :
    DedicatedIngressTranslator.Translate env d (some model)
      = .returned { cec := none, svc := none, ep := none, err := some err } := by
  have herr2 : (sharedResultFor env d model s0).err = some err := herr
  rw [Translate_of_first_source env d model l0 ls s0 ss hm hs]
  simp only [herr2]

/-- C18, witness: in the environment whose shared translator fails with a proxy config in
hand, translating the sample model returns the error alone. -/
theorem Translate_shared_error_witness :
    DedicatedIngressTranslator.Translate failingEnv sampleTranslator (some sampleModel)
      = .returned
          { cec := none, svc := none, ep := none
            err := some "envoy listener translation failed" } :=
  Translate_shared_error failingEnv sampleTranslator sampleModel _ _ sampleSource _
    "envoy listener translation failed" rfl rfl rfl

/-- C19: when `Translate` succeeds, the shared translator, constructed with the name
`"cilium-ingress-" ++ Name` of the first source, its namespace and the dedicated translator's
`secretsNamespace` and `enforceHTTPs`, returned a proxy config `cec0`; the returned proxy
config is `cec0` with only `Name` and `OwnerReferences` replaced, so its namespace, labels and
spec are those of `cec0`; the returned service and endpoint set are built by `getService` and
`getEndpoints` from the source, not taken from the shared translator. -/
theorem Translate_frame (env : Env) (d : DedicatedIngressTranslator) (m : Option Model)
    (r : TranslateResult)
    (h : DedicatedIngressTranslator.Translate env d m = .returned r) (hok : r.err = none) :
    ∃ model l0 ls s0 ss cec0 cec, m = some model ∧ model.HTTP = l0 :: ls ∧
      l0.Sources = s0 :: ss ∧
      (env.sharedTranslate
        (NewSharedIngressTranslator ("cilium-ingress-" ++ s0.Name) s0.Namespace
          d.secretsNamespace d.enforceHTTPs) (some model)).cec = some cec0 ∧
      r.cec = some cec ∧
      cec = { cec0 with Name := cec.Name, OwnerReferences := cec.OwnerReferences } ∧
      cec.Namespace = cec0.Namespace ∧ cec.Labels = cec0.Labels ∧ cec.Spec = cec0.Spec ∧
      r.svc = some (getService env s0) ∧ r.ep = some (getEndpoints env s0) := by
  obtain ⟨model, l0, ls, s0, ss, cec0, hm, hh, hs, -, hc, hr⟩ :=
    Translate_success_inv env d m r h hok
  refine ⟨model, l0, ls, s0, ss, cec0,
    { cec0 with
      Name := Sprintf3 ciliumIngressPrefix s0.Namespace s0.Name
      OwnerReferences := [ingressOwnerReference env s0] },
    hm, hh, hs, hc, ?_, rfl, rfl, rfl, rfl, ?_, ?_⟩ <;> rw [hr]

/-- C19, witness: translating `richModel` in `sampleEnvFull`, whose shared translator returns
labels, a spec, a service and an endpoint set, keeps the namespace, labels and spec of the
shared proxy config and returns the service and endpoint set built from the sample source. -/
theorem Translate_frame_witness :
    ∃ model l0 ls s0 ss cec0 cec, some richModel = some model ∧ model.HTTP = l0 :: ls ∧
      l0.Sources = s0 :: ss ∧
      (sampleEnvFull.sharedTranslate
        (NewSharedIngressTranslator ("cilium-ingress-" ++ s0.Name) s0.Namespace
          sampleTranslator.secretsNamespace sampleTranslator.enforceHTTPs)
        (some model)).cec = some cec0 ∧
      richResult.cec = some cec ∧
      cec = { cec0 with Name := cec.Name, OwnerReferences := cec.OwnerReferences } ∧
      cec.Namespace = cec0.Namespace ∧ cec.Labels = cec0.Labels ∧ cec.Spec = cec0.Spec ∧
      richResult.svc = some (getService sampleEnvFull s0) ∧
      richResult.ep = some (getEndpoints sampleEnvFull s0) :=
  Translate_frame sampleEnvFull sampleTranslator (some richModel) richResult Translate_rich rfl

end Cilium
